import Mathlib

/-!
Shallow embedding of `viewflow/flow.py`: the declarative workflow
graph-construction language (edge/node model, builder methods, outgoing-edge
enumeration, display rendering), together with theorems checking the
specification's claims against it.

Python objects are modelled as explicit state records; object identity is a
natural-number `id`; opaque Python values (conditions, labels, callbacks) are
a small value type `PyVal` with Python truthiness; operations that can raise
return `Except PyError`.
-/

namespace Viewflow

/-- Python exceptions relevant to this module. -/
inductive PyError where
  | typeError (msg : String)
  | attributeError (msg : String)
deriving DecidableEq, Repr

/-- Opaque Python values used for conditions, labels, roles, callbacks.
`vNone` is Python `None`. -/
inductive PyVal where
  | vNone
  | vBool (b : Bool)
  | vInt (n : Int)
  | vStr (s : String)
deriving DecidableEq, Repr

/-- Python truthiness (`bool(v)`): `None`, `False`, `0` and `""` are falsy. -/
def PyVal.truthy : PyVal → Bool
  | .vNone => false
  | .vBool b => b
  | .vInt n => decide (n ≠ 0)
  | .vStr s => decide (s ≠ "")

/-- Python `str(v)` for the modelled values. -/
def PyVal.pyStr : PyVal → String
  | .vNone => "None"
  | .vBool b => if b then "True" else "False"
  | .vInt n => toString n
  | .vStr s => s

/-- The classes defined in `flow.py` (plus `object`). -/
inductive PyClass where
  | cObject
  | cNode
  | cEvent
  | cTask
  | cGate
  | cStart
  | cEnd
  | cTimer
  | cMailbox
  | cView
  | cJob
  | cIf
  | cSwitch
  | cJoin
  | cSplit
  | cFirst
deriving DecidableEq, Repr

/-- The class name, as it appears in Python reprs. -/
def PyClass.pyName : PyClass → String
  | .cObject => "object"
  | .cNode => "_Node"
  | .cEvent => "_Event"
  | .cTask => "_Task"
  | .cGate => "_Gate"
  | .cStart => "Start"
  | .cEnd => "End"
  | .cTimer => "Timer"
  | .cMailbox => "Mailbox"
  | .cView => "View"
  | .cJob => "Job"
  | .cIf => "If"
  | .cSwitch => "Switch"
  | .cJoin => "Join"
  | .cSplit => "Split"
  | .cFirst => "First"

/-- Method resolution order of each class in `flow.py` (single inheritance,
so the MRO is the base-class chain). -/
def PyClass.mro : PyClass → List PyClass
  | .cObject => [.cObject]
  | .cNode => [.cNode, .cObject]
  | .cEvent => [.cEvent, .cNode, .cObject]
  | .cTask => [.cTask, .cNode, .cObject]
  | .cGate => [.cGate, .cNode, .cObject]
  | .cStart => [.cStart, .cNode, .cObject]
  | .cEnd => [.cEnd, .cEvent, .cNode, .cObject]
  | .cTimer => [.cTimer, .cEvent, .cNode, .cObject]
  | .cMailbox => [.cMailbox, .cEvent, .cNode, .cObject]
  | .cView => [.cView, .cTask, .cNode, .cObject]
  | .cJob => [.cJob, .cTask, .cNode, .cObject]
  | .cIf => [.cIf, .cGate, .cNode, .cObject]
  | .cSwitch => [.cSwitch, .cGate, .cNode, .cObject]
  | .cJoin => [.cJoin, .cGate, .cNode, .cObject]
  | .cSplit => [.cSplit, .cGate, .cNode, .cObject]
  | .cFirst => [.cFirst, .cGate, .cNode, .cObject]

/-- `issubclass(c, t)` for the modelled hierarchy. -/
def PyClass.isSubclassOf (c t : PyClass) : Bool :=
  decide (t ∈ c.mro)

/-- CPython `super(t, self)`: requires `isinstance(self, t)`; raises
`TypeError` otherwise. `selfCls` is the runtime class of `self`. -/
def superCheck (t selfCls : PyClass) : Except PyError Unit :=
  if selfCls.isSubclassOf t then Except.ok ()
  else Except.error (PyError.typeError
    "super(type, obj): obj must be an instance or subtype of type")

/-- A reference to a node object: its identity, runtime class and current
display name. Edges hold such references (in Python they hold the node
objects themselves; the graph may be cyclic, so we use identities). -/
structure NodeRef where
  cls : PyClass
  id : Nat
  name : Option String
deriving DecidableEq, Repr

/-- Edge classes that occur in `flow.py` (stored as strings in Python). -/
inductive EdgeClass where
  | next
  | cond_true
  | cond_false
  | default
deriving DecidableEq, Repr

/-- The string value of an edge class, as stored in the Python source. -/
def EdgeClass.pyStr : EdgeClass → String
  | .next => "next"
  | .cond_true => "cond_true"
  | .cond_false => "cond_false"
  | .default => "default"

/-- `_Edge`: immutable `(src, dst, edge_class, label)`. `dst` may be Python
`None` (an `If` branch that was never wired), hence `Option`. All edge
constructions in `flow.py` leave `label` at its default `None` (`vNone`). -/
structure Edge where
  src : NodeRef
  dst : Option NodeRef
  edge_class : EdgeClass
  label : PyVal
deriving DecidableEq, Repr

/-- The value found in a node's `_incoming` instance attribute: `None` right
after `_Node.__init__`, or a list assigned by an external graph indexer. -/
inductive IncomingAttr where
  | noneVal
  | listVal (xs : List Edge)
deriving DecidableEq, Repr

/-- The state installed by `_Node.__init__`: `_role = None`,
`_incoming = None`, `name = None`; plus the modelled object identity. -/
structure NodeBase where
  cls : PyClass
  id : Nat
  role : PyVal
  incoming : IncomingAttr
  name : Option String
deriving DecidableEq, Repr

/-- `_Node.__init__` (with the modelled class and identity). -/
def NodeBase.init (cls : PyClass) (id : Nat) : NodeBase :=
  { cls := cls, id := id, role := PyVal.vNone,
    incoming := IncomingAttr.noneVal, name := none }

/-- `Role(role)`: sets `_role` and returns `self`. -/
def NodeBase.Role (b : NodeBase) (role : PyVal) : NodeBase :=
  { b with role := role }

/-- The reference other objects hold to this node. -/
def NodeBase.ref (b : NodeBase) : NodeRef :=
  ⟨b.cls, b.id, b.name⟩

/-- Invoking `node._incoming()`. `_Node.__init__` stores a value in the
instance attribute `_incoming`; instance attributes shadow the class-level
method of the same name, so the call applies that value. Neither `None` nor
a list object is callable, so CPython raises `TypeError` in both states. -/
def pyCallIncoming (v : IncomingAttr) : Except PyError (List Edge) :=
  match v with
  | IncomingAttr.noneVal =>
      Except.error (PyError.typeError "NoneType object is not callable")
  | IncomingAttr.listVal _ =>
      Except.error (PyError.typeError "list object is not callable")

/-- CPython attribute lookup for `.items` on a list object: lists have no
attribute `items` (that is a `dict` method), so this raises
`AttributeError` whatever the list holds. -/
def listItems (xs : List (NodeRef × PyVal)) :
    Except PyError (List (NodeRef × PyVal)) :=
  Except.error (PyError.attributeError "list object has no attribute items")

/-- Shared shape of the `_outgoing` generators of `Start`, `Timer`,
`Mailbox`, `View`, `Job` and `Join`: one `next`-class edge per stored
successor, in list order. -/
def nextEdges (r : NodeRef) (succs : List NodeRef) : List Edge :=
  succs.map fun n =>
    { src := r, dst := some n, edge_class := EdgeClass.next,
      label := PyVal.vNone }

/-- `Start`: base state plus `_activate_next = []`. -/
structure StartState where
  base : NodeBase
  activate_next : List NodeRef
deriving DecidableEq, Repr

/-- `Start.__init__`. -/
def Start.init (id : Nat) : Except PyError StartState :=
  (superCheck PyClass.cStart PyClass.cStart).map fun _ =>
    { base := NodeBase.init PyClass.cStart id, activate_next := [] }

/-- `Start.Activate(node)`: appends a successor, returns `self`. -/
def StartState.Activate (s : StartState) (n : NodeRef) : StartState :=
  { s with activate_next := s.activate_next ++ [n] }

/-- `Start._outgoing`. -/
def StartState.outgoing (s : StartState) : List Edge :=
  nextEdges s.base.ref s.activate_next

/-- `End`: no own `__init__`; only the `_Node` base state. -/
structure EndState where
  base : NodeBase
deriving DecidableEq, Repr

/-- Constructing an `End` node (runs the inherited `_Node.__init__`). -/
def End.init (id : Nat) : EndState :=
  { base := NodeBase.init PyClass.cEnd id }

/-- `End._outgoing`: `iter([])`. `End` defines no successor-adding method
(no `Next`/`Activate`), which is mirrored here by `EndState` having no
successor field and no such operation being defined on it. -/
def EndState.outgoing (s : EndState) : List Edge :=
  []

/-- `Timer`: base state plus `_activate_next = []`. The `minutes`, `hours`
and `days` constructor arguments are not stored anywhere. -/
structure TimerState where
  base : NodeBase
  activate_next : List NodeRef
deriving DecidableEq, Repr

/-- `Timer.__init__(minutes, hours, days)`: the three duration arguments are
discarded; only the successor list is initialized. -/
def Timer.init (id : Nat) (minutes hours days : PyVal) :
    Except PyError TimerState :=
  (superCheck PyClass.cTimer PyClass.cTimer).map fun _ =>
    { base := NodeBase.init PyClass.cTimer id, activate_next := [] }

/-- `Timer.Next(node)`. -/
def TimerState.Next (s : TimerState) (n : NodeRef) : TimerState :=
  { s with activate_next := s.activate_next ++ [n] }

/-- `Timer._outgoing`. -/
def TimerState.outgoing (s : TimerState) : List Edge :=
  nextEdges s.base.ref s.activate_next

/-- `Mailbox`: base state, `_activate_next = []`, stored `_on_receive`. -/
structure MailboxState where
  base : NodeBase
  activate_next : List NodeRef
  on_receive : PyVal
deriving DecidableEq, Repr

/-- `Mailbox.__init__(on_receive)`. -/
def Mailbox.init (id : Nat) (on_receive : PyVal) :
    Except PyError MailboxState :=
  (superCheck PyClass.cMailbox PyClass.cMailbox).map fun _ =>
    { base := NodeBase.init PyClass.cMailbox id, activate_next := [],
      on_receive := on_receive }

/-- `Mailbox.Next(node)`. -/
def MailboxState.Next (s : MailboxState) (n : NodeRef) : MailboxState :=
  { s with activate_next := s.activate_next ++ [n] }

/-- `Mailbox._outgoing`. -/
def MailboxState.outgoing (s : MailboxState) : List Edge :=
  nextEdges s.base.ref s.activate_next

/-- `View`: base state, `_activate_next = []`, stored `_view`. -/
structure ViewState where
  base : NodeBase
  activate_next : List NodeRef
  view : PyVal
deriving DecidableEq, Repr

/-- `View.__init__(view)`. -/
def View.init (id : Nat) (view : PyVal) : Except PyError ViewState :=
  (superCheck PyClass.cView PyClass.cView).map fun _ =>
    { base := NodeBase.init PyClass.cView id, activate_next := [],
      view := view }

/-- `View.Next(node)`. -/
def ViewState.Next (s : ViewState) (n : NodeRef) : ViewState :=
  { s with activate_next := s.activate_next ++ [n] }

/-- `View._outgoing`. -/
def ViewState.outgoing (s : ViewState) : List Edge :=
  nextEdges s.base.ref s.activate_next

/-- `Job`: base state, `_activate_next = []`, stored `_job`. -/
structure JobState where
  base : NodeBase
  activate_next : List NodeRef
  job : PyVal
deriving DecidableEq, Repr

/-- `Job.__init__(job)`. -/
def Job.init (id : Nat) (job : PyVal) : Except PyError JobState :=
  (superCheck PyClass.cJob PyClass.cJob).map fun _ =>
    { base := NodeBase.init PyClass.cJob id, activate_next := [],
      job := job }

/-- `Job.Next(node)`. -/
def JobState.Next (s : JobState) (n : NodeRef) : JobState :=
  { s with activate_next := s.activate_next ++ [n] }

/-- `Job._outgoing`. -/
def JobState.outgoing (s : JobState) : List Edge :=
  nextEdges s.base.ref s.activate_next

/-- `If`: base state, stored `_condition`, `_on_true = None`,
`_on_false = None`. -/
structure IfState where
  base : NodeBase
  condition : PyVal
  on_true : Option NodeRef
  on_false : Option NodeRef
deriving DecidableEq, Repr

/-- `If.__init__(cond)`. -/
def If.init (id : Nat) (cond : PyVal) : Except PyError IfState :=
  (superCheck PyClass.cIf PyClass.cIf).map fun _ =>
    { base := NodeBase.init PyClass.cIf id, condition := cond,
      on_true := none, on_false := none }

/-- `If.OnTrue(node)`: overwrites `_on_true`, returns `self`. -/
def IfState.OnTrue (s : IfState) (n : NodeRef) : IfState :=
  { s with on_true := some n }

/-- `If.OnFalse(node)`: overwrites `_on_false`, returns `self`. -/
def IfState.OnFalse (s : IfState) (n : NodeRef) : IfState :=
  { s with on_false := some n }

/-- `If._outgoing`: always yields the `cond_true` edge to `_on_true`, then
the `cond_false` edge to `_on_false`, whatever those hold. -/
def IfState.outgoing (s : IfState) : List Edge :=
  [ { src := s.base.ref, dst := s.on_true, edge_class := EdgeClass.cond_true,
      label := PyVal.vNone },
    { src := s.base.ref, dst := s.on_false, edge_class := EdgeClass.cond_false,
      label := PyVal.vNone } ]

/-- `Switch`: the state its methods assume (`_activate_next` a list of
`(node, cond)` pairs). Note `Switch.__init__` never succeeds, see
`Switch.init`. -/
structure SwitchState where
  base : NodeBase
  activate_next : List (NodeRef × PyVal)
deriving DecidableEq, Repr

/-- `Switch.__init__`: its body is `super(Split, self).__init__()` — with
`self` an instance of `Switch`, which is not a subclass of `Split`, so the
`super` call raises `TypeError` and no `Switch` instance is ever
initialized. -/
def Switch.init (id : Nat) : Except PyError SwitchState :=
  (superCheck PyClass.cSplit PyClass.cSwitch).map fun _ =>
    { base := NodeBase.init PyClass.cSwitch id, activate_next := [] }

/-- `Switch.Case(node, cond)`: appends `(node, cond)`, returns `self`. -/
def SwitchState.Case (s : SwitchState) (n : NodeRef) (cond : PyVal) :
    SwitchState :=
  { s with activate_next := s.activate_next ++ [(n, cond)] }

/-- `Switch.Default(node)`: appends `(node, None)`, returns `self`. -/
def SwitchState.Default (s : SwitchState) (n : NodeRef) : SwitchState :=
  { s with activate_next := s.activate_next ++ [(n, PyVal.vNone)] }

/-- `Switch._outgoing`: iterates `self._activate_next.items()`, but
`_activate_next` is a list, which has no `items` attribute — the first step
of the generator raises `AttributeError`. -/
def SwitchState.outgoing (s : SwitchState) : Except PyError (List Edge) := do
  let pairs ← listItems s.activate_next
  pure (pairs.map fun p =>
    { src := s.base.ref, dst := some p.1,
      edge_class := if p.2.truthy then EdgeClass.cond_true
                    else EdgeClass.default,
      label := PyVal.vNone })

/-- `Join`: base state, stored `_wait_all`, `_activate_next = []`. -/
structure JoinState where
  base : NodeBase
  wait_all : Bool
  activate_next : List NodeRef
deriving DecidableEq, Repr

/-- `Join.__init__(wait_all)`. -/
def Join.init (id : Nat) (wait_all : Bool) : Except PyError JoinState :=
  (superCheck PyClass.cJoin PyClass.cJoin).map fun _ =>
    { base := NodeBase.init PyClass.cJoin id, wait_all := wait_all,
      activate_next := [] }

/-- `Join.Next(node)`. -/
def JoinState.Next (s : JoinState) (n : NodeRef) : JoinState :=
  { s with activate_next := s.activate_next ++ [n] }

/-- `Join._outgoing`. -/
def JoinState.outgoing (s : JoinState) : List Edge :=
  nextEdges s.base.ref s.activate_next

/-- `Split`: base state, `_activate_next` a list of `(node, cond)` pairs. -/
structure SplitState where
  base : NodeBase
  activate_next : List (NodeRef × PyVal)
deriving DecidableEq, Repr

/-- `Split.__init__`. -/
def Split.init (id : Nat) : Except PyError SplitState :=
  (superCheck PyClass.cSplit PyClass.cSplit).map fun _ =>
    { base := NodeBase.init PyClass.cSplit id, activate_next := [] }

/-- `Split.Next(node, cond)`: appends `(node, cond)`, returns `self`
(Python default for `cond` is `None`, i.e. `vNone`). -/
def SplitState.Next (s : SplitState) (n : NodeRef) (cond : PyVal) :
    SplitState :=
  { s with activate_next := s.activate_next ++ [(n, cond)] }

/-- `Split.Always(node)`: appends `(node, None)`, returns `self`. -/
def SplitState.Always (s : SplitState) (n : NodeRef) : SplitState :=
  { s with activate_next := s.activate_next ++ [(n, PyVal.vNone)] }

/-- `Split._outgoing`: one edge per stored pair; the class is `cond_true`
when `cond` is truthy (Python `if cond`), else `default`. -/
def SplitState.outgoing (s : SplitState) : List Edge :=
  s.activate_next.map fun p =>
    { src := s.base.ref, dst := some p.1,
      edge_class := if p.2.truthy then EdgeClass.cond_true
                    else EdgeClass.default,
      label := PyVal.vNone }

/-- `First`: base state, `_activate_list = []`. -/
structure FirstState where
  base : NodeBase
  activate_list : List NodeRef
deriving DecidableEq, Repr

/-- `First.__init__`. -/
def First.init (id : Nat) : Except PyError FirstState :=
  (superCheck PyClass.cFirst PyClass.cFirst).map fun _ =>
    { base := NodeBase.init PyClass.cFirst id, activate_list := [] }

/-- `First.Of(node)`: appends to `_activate_list`, returns `self`. -/
def FirstState.Of (s : FirstState) (n : NodeRef) : FirstState :=
  { s with activate_list := s.activate_list ++ [n] }

/-- CPython attribute lookup for a name no code path ever sets on the
instance or its classes: raises `AttributeError`. -/
def getAttrMissing (cls attr : String) :
    Except PyError (List (NodeRef × PyVal)) :=
  Except.error (PyError.attributeError
    (cls ++ " object has no attribute " ++ attr))

/-- `First._outgoing`: reads `self._activate_next.items()`, but no method of
`First` ever sets `_activate_next` (`Of` appends to `_activate_list`), so
the attribute lookup raises `AttributeError` before any edge is yielded. -/
def FirstState.outgoing (s : FirstState) : Except PyError (List Edge) := do
  let stored ← getAttrMissing "First" "_activate_next"
  let pairs ← listItems stored
  pure (pairs.map fun p =>
    { src := s.base.ref, dst := some p.1, edge_class := EdgeClass.next,
      label := PyVal.vNone })

/-- Python `str.title()` (ASCII model): a letter is uppercased when the
previous character is not a letter, lowercased otherwise; other characters
are kept and end the current word. -/
def pyTitleAux : Bool → List Char → List Char
  | _, [] => []
  | prevAlpha, c :: cs =>
    if c.isAlpha then
      (if prevAlpha then c.toLower else c.toUpper) :: pyTitleAux true cs
    else
      c :: pyTitleAux false cs

/-- Python `s.title()`. -/
def pyTitle (s : String) : String :=
  String.mk (pyTitleAux false s.data)

/-- Python `s.replace('_', ' ')`: the pattern is a single character, so this
is a character-wise substitution. -/
def replaceUnderscores (s : String) : String :=
  String.mk (s.data.map fun c => if c = '_' then ' ' else c)

/-- CPython `object.__str__` fallback, `"<module.Class object at addr>"`,
with the modelled object identity in place of the memory address. -/
def genericRepr (cls : PyClass) (id : Nat) : String :=
  "<viewflow.flow." ++ cls.pyName ++ " object at " ++ toString id ++ ">"

/-- `_Node.__str__`: when `self.name` is truthy,
`self.name.title().replace('_', ' ')`; otherwise the inherited generic
object rendering. -/
def nodeDisplay (cls : PyClass) (id : Nat) (name : Option String) : String :=
  match name with
  | some s => if s.isEmpty then genericRepr cls id
              else replaceUnderscores (pyTitle s)
  | none => genericRepr cls id

/-- `str(node)` through a node reference. -/
def NodeRef.pyStr (r : NodeRef) : String :=
  nodeDisplay r.cls r.id r.name

/-- `str(dst)` for an edge destination (`str(None) = "None"`). -/
def optNodeStr : Option NodeRef → String
  | some r => r.pyStr
  | none => "None"

/-- `_Edge.__str__`: `"[%s] %s ---> %s" % (edge_class, src, dst)`, then
`" (%s)" % label` appended when the label is truthy. -/
def Edge.pyStr (e : Edge) : String :=
  let edge := "[" ++ e.edge_class.pyStr ++ "] " ++ e.src.pyStr
                ++ " ---> " ++ optNodeStr e.dst
  if e.label.truthy then edge ++ " (" ++ e.label.pyStr ++ ")" else edge

/-- Value equality of two edges: same source, destination, class and
label. -/
def edgeEqValue (a b : Edge) : Bool :=
  decide (a.src = b.src) && decide (a.dst = b.dst)
    && decide (a.edge_class = b.edge_class) && decide (a.label = b.label)

/-- Value equality of two edge sequences: same length and value-equal edges
at each position. -/
def edgesEqValue (es fs : List Edge) : Bool :=
  decide (es.length = fs.length)
    && (es.zip fs).all fun p => edgeEqValue p.1 p.2

/-- A node of any concrete type, for claims quantifying over all types. -/
inductive PNode where
  | pStart (s : StartState)
  | pEnd (s : EndState)
  | pTimer (s : TimerState)
  | pMailbox (s : MailboxState)
  | pView (s : ViewState)
  | pJob (s : JobState)
  | pIf (s : IfState)
  | pSwitch (s : SwitchState)
  | pJoin (s : JoinState)
  | pSplit (s : SplitState)
  | pFirst (s : FirstState)
deriving DecidableEq, Repr

/-- The `_Node` base state of any node. -/
def PNode.base : PNode → NodeBase
  | .pStart s => s.base
  | .pEnd s => s.base
  | .pTimer s => s.base
  | .pMailbox s => s.base
  | .pView s => s.base
  | .pJob s => s.base
  | .pIf s => s.base
  | .pSwitch s => s.base
  | .pJoin s => s.base
  | .pSplit s => s.base
  | .pFirst s => s.base

/-- The reference other objects hold to this node. -/
def PNode.ref (n : PNode) : NodeRef :=
  n.base.ref

/-- `_outgoing` of any node, materialized: the yielded edges, or the
exception the generator raises. -/
def PNode.outgoing : PNode → Except PyError (List Edge)
  | .pStart s => Except.ok s.outgoing
  | .pEnd s => Except.ok s.outgoing
  | .pTimer s => Except.ok s.outgoing
  | .pMailbox s => Except.ok s.outgoing
  | .pView s => Except.ok s.outgoing
  | .pJob s => Except.ok s.outgoing
  | .pIf s => Except.ok s.outgoing
  | .pSwitch s => s.outgoing
  | .pJoin s => Except.ok s.outgoing
  | .pSplit s => Except.ok s.outgoing
  | .pFirst s => s.outgoing

/-- Calling `_outgoing` as a state transformer: the generator bodies of
`flow.py` contain no assignment to `self`, so the node state after the call
is the input state unchanged. -/
def PNode.outgoingCall (n : PNode) : Except PyError (List Edge) × PNode :=
  (n.outgoing, n)

/-- Invoking `incomingEdges()` on a node: applies the value stored in the
`_incoming` instance attribute (which shadows the method). -/
def PNode.incomingCall (n : PNode) : Except PyError (List Edge) :=
  pyCallIncoming n.base.incoming



/-- Observable shape of a `next`-edge sequence: position by position, the
edge class is `next` and the destination is the registered successor (so in
particular the lengths agree and edges come in registration order). -/
def nextShape (es : List Edge) (succs : List NodeRef) : Prop :=
  es.map (fun e => (e.edge_class, e.dst))
    = succs.map fun n => (EdgeClass.next, some n)

/-- Python type name of the value stored in `_incoming`. -/
def IncomingAttr.pyTypeName : IncomingAttr → String
  | .noneVal => "NoneType"
  | .listVal _ => "list"

/- Helper lemmas shared by the claim theorems. -/

theorem nextEdges_shape (r : NodeRef) (succs : List NodeRef) :
    nextShape (nextEdges r succs) succs := by
  simp [nextShape, nextEdges]

theorem src_of_mem_nextEdges {r : NodeRef} {succs : List NodeRef} {e : Edge}
    (he : e ∈ nextEdges r succs) : e.src = r := by
  simp only [nextEdges, List.mem_map] at he
  obtain ⟨n, _, rfl⟩ := he
  rfl

theorem src_of_mem_split {s : SplitState} {e : Edge}
    (he : e ∈ s.outgoing) : e.src = s.base.ref := by
  simp only [SplitState.outgoing, List.mem_map] at he
  obtain ⟨p, _, rfl⟩ := he
  rfl

theorem switch_outgoing_error (s : SwitchState) :
    s.outgoing = Except.error
      (PyError.attributeError "list object has no attribute items") := rfl

theorem first_outgoing_error (s : FirstState) :
    s.outgoing = Except.error
      (PyError.attributeError
        "First object has no attribute _activate_next") := rfl

theorem edgeEqValue_refl (e : Edge) : edgeEqValue e e = true := by
  simp [edgeEqValue]

theorem edgesEqValue_refl (es : List Edge) : edgesEqValue es es = true := by
  induction es with
  | nil => rfl
  | cons e es ih =>
      simp [edgesEqValue, edgeEqValue] at ih ⊢
      exact ih

/- Claim theorems. -/

/-- C1: `Switch` is unusable as written — its constructor runs
`super(Split, self).__init__()`, which raises `TypeError` because a `Switch`
instance is not an instance of `Split`, so no `Switch` node can be
constructed; and even on a hypothetical `Switch` state its `_outgoing`
raises `AttributeError` (it calls `.items()` on a list), so no branch can
ever be enumerated. The claimed `Case`/`Default`/`outgoingEdges` behavior
therefore never takes effect. -/
theorem C1_switch_unusable :
    (∀ id : Nat, Switch.init id = Except.error (PyError.typeError
      "super(type, obj): obj must be an instance or subtype of type")) ∧
    (∀ s : SwitchState, s.outgoing = Except.error (PyError.attributeError
      "list object has no attribute items")) := by
  exact ⟨fun id => rfl, fun s => switch_outgoing_error s⟩

/-- C2: for `Start`, `Timer`, `Mailbox`, `View`, `Job` and `Join`, the
outgoing edges are one `next`-class edge per registered successor, in
registration order; but for `First` the claim fails — `First._outgoing`
reads the attribute `_activate_next`, which no `First` method ever sets
(`Of` appends to `_activate_list`), so enumerating the edges of a `First`
node with one registered successor raises `AttributeError` instead of
yielding one edge. -/
theorem C2_next_edge_counts :
    (∀ s : StartState, nextShape s.outgoing s.activate_next) ∧
    (∀ s : TimerState, nextShape s.outgoing s.activate_next) ∧
    (∀ s : MailboxState, nextShape s.outgoing s.activate_next) ∧
    (∀ s : ViewState, nextShape s.outgoing s.activate_next) ∧
    (∀ s : JobState, nextShape s.outgoing s.activate_next) ∧
    (∀ s : JoinState, nextShape s.outgoing s.activate_next) ∧
    ((First.init 0).bind
        (fun f => (f.Of ⟨PyClass.cEnd, 1, none⟩).outgoing)
      = Except.error (PyError.attributeError
          "First object has no attribute _activate_next")) := by
  refine ⟨fun s => ?_, fun s => ?_, fun s => ?_, fun s => ?_, fun s => ?_,
    fun s => ?_, rfl⟩ <;> exact nextEdges_shape s.base.ref s.activate_next

/-- C3 counterexample: registering a `Split` branch with the non-null but
falsy condition `False` produces a `default`-class edge, refuting the claim
that a `cond_true` class follows from any non-null condition. -/
theorem C3_counterexample :
    (PyVal.vBool false ≠ PyVal.vNone) ∧
    ((Split.init 0).map (fun sp =>
        (sp.Next ⟨PyClass.cEnd, 1, none⟩ (PyVal.vBool false)).outgoing.map
          Edge.edge_class)
      = Except.ok [EdgeClass.default]) := by
  exact ⟨by decide, rfl⟩

/-- C3 (amended): for every `Split` node, an outgoing edge's class is
`cond_true` iff the condition supplied for that branch is truthy in
Python's sense (so non-null falsy conditions such as `False`, `0`, `""`
give `default`), position by position in registration order; and the
`Switch` half of the claim is vacuous because `Switch.__init__` always
raises, so no `Switch` node exists. -/
theorem C3_split_truthiness :
    (∀ s : SplitState,
      s.outgoing.map (fun e => (e.edge_class, e.dst))
        = s.activate_next.map fun p =>
            (if p.2.truthy then EdgeClass.cond_true else EdgeClass.default,
             some p.1)) ∧
    (∀ id : Nat, Switch.init id = Except.error (PyError.typeError
      "super(type, obj): obj must be an instance or subtype of type")) := by
  constructor
  · intro s
    simp [SplitState.outgoing]
  · intro id
    rfl

/-- C4: in every wiring state of an `If` node (branches never set, set
once, or set in either order), `outgoingEdges()` yields exactly the two
edges `(cond_true, on_true)` then `(cond_false, on_false)`; and the two
setters commute, so registration order is irrelevant. -/
theorem C4_if_two_fixed_edges :
    (∀ s : IfState,
      s.outgoing.map (fun e => (e.edge_class, e.dst))
        = [(EdgeClass.cond_true, s.on_true),
           (EdgeClass.cond_false, s.on_false)]) ∧
    (∀ s : IfState, ∀ a b : NodeRef,
      (s.OnTrue a).OnFalse b = (s.OnFalse b).OnTrue a) := by
  exact ⟨fun s => rfl, fun s a b => rfl⟩

/-- C5: whenever outgoing-edge enumeration succeeds on any node of any
concrete type, every yielded edge has the node itself as its source. -/
theorem C5_edge_src_is_node (n : PNode) (es : List Edge) (e : Edge)
    (hok : n.outgoing = Except.ok es) (he : e ∈ es) : e.src = n.ref := by
  cases n with
  | pStart s =>
      simp only [PNode.outgoing, Except.ok.injEq] at hok
      subst hok
      exact src_of_mem_nextEdges he
  | pEnd s =>
      simp only [PNode.outgoing, EndState.outgoing, Except.ok.injEq] at hok
      subst hok
      cases he
  | pTimer s =>
      simp only [PNode.outgoing, Except.ok.injEq] at hok
      subst hok
      exact src_of_mem_nextEdges he
  | pMailbox s =>
      simp only [PNode.outgoing, Except.ok.injEq] at hok
      subst hok
      exact src_of_mem_nextEdges he
  | pView s =>
      simp only [PNode.outgoing, Except.ok.injEq] at hok
      subst hok
      exact src_of_mem_nextEdges he
  | pJob s =>
      simp only [PNode.outgoing, Except.ok.injEq] at hok
      subst hok
      exact src_of_mem_nextEdges he
  | pIf s =>
      simp only [PNode.outgoing, IfState.outgoing, Except.ok.injEq] at hok
      subst hok
      simp only [List.mem_cons, List.not_mem_nil, or_false] at he
      rcases he with rfl | rfl <;> rfl
  | pSwitch s =>
      rw [show PNode.outgoing (PNode.pSwitch s) = s.outgoing from rfl,
        switch_outgoing_error] at hok
      exact Except.noConfusion hok
  | pJoin s =>
      simp only [PNode.outgoing, Except.ok.injEq] at hok
      subst hok
      exact src_of_mem_nextEdges he
  | pSplit s =>
      simp only [PNode.outgoing, Except.ok.injEq] at hok
      subst hok
      exact src_of_mem_split he
  | pFirst s =>
      rw [show PNode.outgoing (PNode.pFirst s) = s.outgoing from rfl,
        first_outgoing_error] at hok
      exact Except.noConfusion hok

/-- C5 witness: the single edge of a concrete `Start` node with one
registered successor has that node as its source. -/
theorem C5_witness :
    (Edge.mk ⟨PyClass.cStart, 0, none⟩ (some ⟨PyClass.cEnd, 1, none⟩)
        EdgeClass.next PyVal.vNone).src
      = (PNode.pStart ⟨NodeBase.init PyClass.cStart 0,
          [⟨PyClass.cEnd, 1, none⟩]⟩).ref :=
  C5_edge_src_is_node _
    [Edge.mk ⟨PyClass.cStart, 0, none⟩ (some ⟨PyClass.cEnd, 1, none⟩)
      EdgeClass.next PyVal.vNone] _ rfl (by simp)

/-- C6: outgoing-edge enumeration is pure — invoking it returns the node
state unchanged, and two enumerations of the same unmodified node yield
edge sequences that are equal value by value (same length and same source,
destination, class and label at each position). -/
theorem C6_outgoing_pure (n : PNode) :
    (n.outgoingCall.2 = n) ∧
    (∀ es fs : List Edge, n.outgoing = Except.ok es →
      n.outgoing = Except.ok fs → edgesEqValue es fs = true) := by
  refine ⟨rfl, fun es fs h1 h2 => ?_⟩
  rw [h1] at h2
  injection h2 with h
  subst h
  exact edgesEqValue_refl es

/-- C6 witness: instantiated on a concrete `Start` node with one successor,
whose enumeration yields one edge. -/
theorem C6_witness :
    ((PNode.pStart ⟨NodeBase.init PyClass.cStart 0,
        [⟨PyClass.cEnd, 1, none⟩]⟩).outgoingCall.2
      = PNode.pStart ⟨NodeBase.init PyClass.cStart 0,
          [⟨PyClass.cEnd, 1, none⟩]⟩) ∧
    edgesEqValue
      [Edge.mk ⟨PyClass.cStart, 0, none⟩ (some ⟨PyClass.cEnd, 1, none⟩)
        EdgeClass.next PyVal.vNone]
      [Edge.mk ⟨PyClass.cStart, 0, none⟩ (some ⟨PyClass.cEnd, 1, none⟩)
        EdgeClass.next PyVal.vNone] = true :=
  ⟨(C6_outgoing_pure (PNode.pStart ⟨NodeBase.init PyClass.cStart 0,
      [⟨PyClass.cEnd, 1, none⟩]⟩)).1,
   (C6_outgoing_pure (PNode.pStart ⟨NodeBase.init PyClass.cStart 0,
      [⟨PyClass.cEnd, 1, none⟩]⟩)).2 _ _ rfl rfl⟩

/-- C7: an `End` node yields no outgoing edges in any state; `End` defines
no successor-adding operation (mirrored here by `EndState` having no
successor field and no `Next`/`Activate` being defined on it), so no wiring
state of an `End` node can make it yield an edge. -/
theorem C7_end_is_terminal :
    ∀ s : EndState,
      s.outgoing = [] ∧ (PNode.pEnd s).outgoing = Except.ok [] :=
  fun s => ⟨rfl, rfl⟩

/-- C8: display rendering — a node named `"approve_request"` renders as
`"Approve Request"`; an unnamed node falls back to the generic object
rendering; a `next`-class edge renders as `"[next] A ---> B"`, and a truthy
label `"retry"` appends `" (retry)"` (omitted when the label is absent, as
the third conjunct shows). -/
theorem C8_rendering :
    (∀ cls : PyClass, ∀ id : Nat,
      nodeDisplay cls id (some "approve_request") = "Approve Request") ∧
    (∀ cls : PyClass, ∀ id : Nat,
      nodeDisplay cls id none = genericRepr cls id) ∧
    (∀ a b : NodeRef,
      Edge.pyStr ⟨a, some b, EdgeClass.next, PyVal.vNone⟩
        = "[next] " ++ a.pyStr ++ " ---> " ++ b.pyStr) ∧
    (∀ a b : NodeRef,
      Edge.pyStr ⟨a, some b, EdgeClass.next, PyVal.vStr "retry"⟩
        = "[next] " ++ a.pyStr ++ " ---> " ++ b.pyStr ++ " (retry)") := by
  refine ⟨fun cls id => rfl, fun cls id => rfl, fun a b => rfl, ?_⟩
  intro a b
  show ((("[next] " ++ a.pyStr) ++ " ---> " ++ b.pyStr) ++ " (")
      ++ "retry" ++ ")" = _
  rw [String.append_assoc, String.append_assoc]
  rfl

/-- C9: invoking `incomingEdges()` fails on every node of every type: the
`_incoming` instance attribute installed by `_Node.__init__` (and possibly
reassigned to a list by an external indexer) shadows the method of the same
name, and neither `None` nor a list is callable, so the call raises
`TypeError` in every reachable state. -/
theorem C9_incoming_uncallable :
    ∀ n : PNode,
      n.incomingCall = Except.error (PyError.typeError
        (n.base.incoming.pyTypeName ++ " object is not callable")) := by
  intro n
  simp only [PNode.incomingCall]
  cases hv : n.base.incoming <;> rfl

/-- C10: the `Timer` constructor discards its `minutes`, `hours` and `days`
arguments — any two assignments of duration arguments produce identical
constructed states, so the duration is unrecoverable from a built `Timer`
and every operation behaves identically on the two results. -/
theorem C10_timer_discards_duration :
    ∀ id : Nat, ∀ m h d m2 h2 d2 : PyVal,
      Timer.init id m h d = Timer.init id m2 h2 d2 :=
  fun id m h d m2 h2 d2 => rfl

end Viewflow
